import Mathlib

/-!
# Device trust handlers of the VPN server

A shallow embedding of `vpn-server/api/device_handler.go` and of the device
tracking middleware of `vpn-server/main.go`, followed by the properties checked
against it.

Conventions of the embedding.

* A handler is a function of the helper methods it calls, of the handler value
  it runs on (the receiver `h`, holding `db` and `redis`), and of the request.
  It returns the handler value afterwards, the helper calls it made, in order
  and with their results, and the HTTP response it wrote.
* The helper methods are gathered in `Helpers`; `sourceHelpers` holds the bodies
  found in the source file. Statements about what a handler does with a helper
  result (an error, a verdict) quantify over `Helpers`; statements about what
  the program computes use `sourceHelpers`.
* `time.Now()` is the request's `now`: `now k` is the value of the call number
  `k` made while the request is handled.
* A request body is either one on which `Decode` reports an error, or a JSON
  object given by the keys it carries.
* The source keeps no device record: its helper bodies store nothing. Where a
  property is about a stored value, the store is modelled from the
  specification, and the definition says so.
-/

set_option linter.unusedVariables false

namespace VpnServer

/-! ## Data model (`device_handler.go`, lines 14-59) -/

/-- Value of Go `time.Time`, counted from the zero time, which is `0`. -/
abbrev Time := Int

/-- Go `error` values the handlers tell apart: `sql.ErrNoRows` and the others. -/
inductive Error where
  | ErrNoRows
  | other (msg : String)
  deriving DecidableEq, Repr

/-- Location represents geographical location data. -/
structure Location where
  Latitude : Float
  Longitude : Float
  Country : String
  City : String

/-- Connection represents network connection information. The Go field `Type`
is written `Type_`. -/
structure Connection where
  Type_ : String
  EffectiveType : String
  Downlink : Float
  RTT : Int

/-- DeviceInfo represents the device information collected from clients. -/
structure DeviceInfo where
  SessionID : String
  UserAgent : String
  Platform : String
  Vendor : String
  IPAddress : String
  Location : Location
  Connection : Connection
  LastSeen : Time
  CreatedAt : Time
  IsAuthorized : Bool

/-- SecurityEvent represents a security-related event. The Go field `Type` is
written `Type_`. -/
structure SecurityEvent where
  Type_ : String
  DeviceID : String
  UserID : String
  IPAddress : String
  Severity : String
  Details : String
  Timestamp : Time

/-- DeviceHandler handles device-related API endpoints; it holds the database
and the cache handles, whose types are those of external libraries. -/
structure DeviceHandler (DB Redis : Type) where
  db : DB
  redis : Redis

/-- The anonymous struct decoded by `DeviceHeartbeat`. -/
structure Heartbeat where
  DeviceID : String
  Timestamp : Time
  Status : String

/-! ## Requests and JSON bodies -/

/-- Keys of a JSON object sent to `/api/device/register`; `none` is an absent
key. -/
structure DeviceInfoFields where
  sessionId : Option String
  userAgent : Option String
  platform : Option String
  vendor : Option String
  ipAddress : Option String
  location : Option Location
  connection : Option Connection
  lastSeen : Option Time
  createdAt : Option Time
  isAuthorized : Option Bool

/-- Keys of a JSON object sent to `/api/device/heartbeat`. -/
structure HeartbeatFields where
  deviceId : Option String
  timestamp : Option Time
  status : Option String

/-- Keys of a JSON object sent to `/api/security/log`. -/
structure SecurityEventFields where
  type : Option String
  deviceId : Option String
  userId : Option String
  ipAddress : Option String
  severity : Option String
  details : Option String
  timestamp : Option Time

/-- A request body as `json.NewDecoder(r.Body).Decode` sees it: `malformed` is
a body on which `Decode` returns an error, `object f` a JSON object with the
keys of `f`, each holding a value of the type of its field. `illTyped f key` is
the JSON object with the keys of `f` and, under `key`, one more key of the
struct decoded into, a value its field cannot hold (a number for a time, a
string for a boolean): on it `Decode` returns an error too. -/
inductive Body (β : Type) where
  | malformed
  | object (fields : β)
  | illTyped (fields : β) (key : String)

/-- The part of `*http.Request` the handlers read. `Vars` is `mux.Vars(r)`,
`Query` is `r.URL.Query()`, and `now k` is what call number `k` of `time.Now()`
returns while this request is handled. -/
structure Request (β : Type) where
  Body : Body β
  RemoteAddr : String
  Header : List (String × String)
  Vars : List (String × String)
  Query : List (String × String)
  now : Nat → Time

/-- Go map or `url.Values` lookup: the value of the key, or the empty string. -/
def lookupOrEmpty (m : List (String × String)) (key : String) : String :=
  (m.lookup key).getD ""

/-- `json.Decoder.Decode` into a zero `DeviceInfo`: a key of the object sets its
field, a field whose key is absent keeps its zero value, and no key is
required. -/
def decodeDeviceInfo : Body DeviceInfoFields → Except Error DeviceInfo
  | .malformed => .error (.other "invalid JSON")
  | .illTyped _ _ => .error (.other "json: cannot unmarshal")
  | .object f => .ok
      { SessionID := f.sessionId.getD ""
        UserAgent := f.userAgent.getD ""
        Platform := f.platform.getD ""
        Vendor := f.vendor.getD ""
        IPAddress := f.ipAddress.getD ""
        Location := f.location.getD ⟨0, 0, "", ""⟩
        Connection := f.connection.getD ⟨"", "", 0, 0⟩
        LastSeen := f.lastSeen.getD 0
        CreatedAt := f.createdAt.getD 0
        IsAuthorized := f.isAuthorized.getD false }

/-- `json.Decoder.Decode` into the zero heartbeat struct. -/
def decodeHeartbeat : Body HeartbeatFields → Except Error Heartbeat
  | .malformed => .error (.other "invalid JSON")
  | .illTyped _ _ => .error (.other "json: cannot unmarshal")
  | .object f => .ok
      { DeviceID := f.deviceId.getD ""
        Timestamp := f.timestamp.getD 0
        Status := f.status.getD "" }

/-- `json.Decoder.Decode` into a zero `SecurityEvent`. -/
def decodeSecurityEvent : Body SecurityEventFields → Except Error SecurityEvent
  | .malformed => .error (.other "invalid JSON")
  | .illTyped _ _ => .error (.other "json: cannot unmarshal")
  | .object f => .ok
      { Type_ := f.type.getD ""
        DeviceID := f.deviceId.getD ""
        UserID := f.userId.getD ""
        IPAddress := f.ipAddress.getD ""
        Severity := f.severity.getD ""
        Details := f.details.getD ""
        Timestamp := f.timestamp.getD 0 }

/-! ## Responses -/

/-- What a handler writes as the response body. A JSON body is given by the
value that was encoded. -/
inductive ResponseBody where
  | empty
  | text (msg : String)
  | registration (status : String) (deviceId : String) (authorized : Bool)
  | device (d : Option DeviceInfo)
  | events (es : Option (List SecurityEvent))

/-- Status code and body written to the `http.ResponseWriter`. -/
structure Response where
  StatusCode : Nat
  Body : ResponseBody

def StatusOK : Nat := 200
def StatusBadRequest : Nat := 400
def StatusForbidden : Nat := 403
def StatusNotFound : Nat := 404
def StatusInternalServerError : Nat := 500

/-- `http.Error(w, msg, code)`. -/
def httpError (msg : String) (code : Nat) : Response := ⟨code, .text msg⟩

/-- `json.NewEncoder(w).Encode(v)` with no earlier `WriteHeader`: status 200. -/
def jsonEncode (v : ResponseBody) : Response := ⟨StatusOK, v⟩

/-- `w.WriteHeader(code)` with nothing written after it. -/
def writeHeader (code : Nat) : Response := ⟨code, .empty⟩

/-! ## Helper methods -/

/-- One call of a helper method: its arguments and what it returned. -/
inductive Call where
  | enrichDeviceInfo (device : DeviceInfo) (err : Option Error)
  | isSuspiciousDevice (device : DeviceInfo) (result : Bool)
  | storeDevice (device : DeviceInfo) (err : Option Error)
  | updateDeviceLastSeen (deviceID : String) (timestamp : Time) (err : Option Error)
  | detectAnomalies (deviceID : String) (ipAddress : String) (result : Bool)
  | getDeviceByID (deviceID : String) (device : Option DeviceInfo) (err : Option Error)
  | setDeviceAuthorization (deviceID : String) (authorized : Bool) (err : Option Error)
  | logSecurityEvent (event : SecurityEvent) (err : Option Error)
  | getSecurityEvents (limit : Int) (events : Option (List SecurityEvent)) (err : Option Error)

/-- The helper methods of `DeviceHandler` (lines 257-303 of the source) as
functions of the handler value `σ` they run on. Each returns the handler value
afterwards with its Go results; `enrichDeviceInfo` takes the device by pointer
and so also returns the device. -/
structure Helpers (σ : Type) where
  enrichDeviceInfo : σ → DeviceInfo → σ × DeviceInfo × Option Error
  isSuspiciousDevice : σ → DeviceInfo → σ × Bool
  storeDevice : σ → DeviceInfo → σ × Option Error
  updateDeviceLastSeen : σ → String → Time → σ × Option Error
  detectAnomalies : σ → String → String → σ × Bool
  getDeviceByID : σ → String → σ × Option DeviceInfo × Option Error
  setDeviceAuthorization : σ → String → Bool → σ × Option Error
  logSecurityEvent : σ → SecurityEvent → σ × Option Error
  getSecurityEvents : σ → Int → σ × Option (List SecurityEvent) × Option Error

namespace DeviceHandler

variable {DB Redis : Type}

/-- Source: `return nil`, the device is left as it is. -/
def enrichDeviceInfo (h : DeviceHandler DB Redis) (device : DeviceInfo) :
    DeviceHandler DB Redis × DeviceInfo × Option Error :=
  (h, device, none)

/-- Source: `return false`. -/
def isSuspiciousDevice (h : DeviceHandler DB Redis) (device : DeviceInfo) :
    DeviceHandler DB Redis × Bool :=
  (h, false)

/-- Source: `return nil`. -/
def storeDevice (h : DeviceHandler DB Redis) (device : DeviceInfo) :
    DeviceHandler DB Redis × Option Error :=
  (h, none)

/-- Source: `return nil`. -/
def updateDeviceLastSeen (h : DeviceHandler DB Redis) (deviceID : String) (timestamp : Time) :
    DeviceHandler DB Redis × Option Error :=
  (h, none)

/-- Source: `return false`. -/
def detectAnomalies (h : DeviceHandler DB Redis) (deviceID ipAddress : String) :
    DeviceHandler DB Redis × Bool :=
  (h, false)

/-- Source: `return nil, nil`. -/
def getDeviceByID (h : DeviceHandler DB Redis) (deviceID : String) :
    DeviceHandler DB Redis × Option DeviceInfo × Option Error :=
  (h, none, none)

/-- Source: `return nil`. -/
def setDeviceAuthorization (h : DeviceHandler DB Redis) (deviceID : String) (authorized : Bool) :
    DeviceHandler DB Redis × Option Error :=
  (h, none)

/-- Source: `return nil`. -/
def logSecurityEvent (h : DeviceHandler DB Redis) (event : SecurityEvent) :
    DeviceHandler DB Redis × Option Error :=
  (h, none)

/-- Source: `return nil, nil`. -/
def getSecurityEvents (h : DeviceHandler DB Redis) (limit : Int) :
    DeviceHandler DB Redis × Option (List SecurityEvent) × Option Error :=
  (h, none, none)

end DeviceHandler

/-- The helper methods as the source file defines them. -/
def sourceHelpers {DB Redis : Type} : Helpers (DeviceHandler DB Redis) where
  enrichDeviceInfo := DeviceHandler.enrichDeviceInfo
  isSuspiciousDevice := DeviceHandler.isSuspiciousDevice
  storeDevice := DeviceHandler.storeDevice
  updateDeviceLastSeen := DeviceHandler.updateDeviceLastSeen
  detectAnomalies := DeviceHandler.detectAnomalies
  getDeviceByID := DeviceHandler.getDeviceByID
  setDeviceAuthorization := DeviceHandler.setDeviceAuthorization
  logSecurityEvent := DeviceHandler.logSecurityEvent
  getSecurityEvents := DeviceHandler.getSecurityEvents

/-! ## Handlers -/

/-- Outcome of one handler run: the handler value afterwards, the helper calls
made, in order, and the response. -/
structure Result (σ : Type) where
  handler : σ
  calls : List Call
  resp : Response

variable {σ β : Type}

/-- RegisterDevice handles new device registration (lines 81-124). -/
def RegisterDevice (hp : Helpers σ) (h : σ) (r : Request DeviceInfoFields) : Result σ :=
  match decodeDeviceInfo r.Body with
  | .error _ => ⟨h, [], httpError "Invalid request body" StatusBadRequest⟩
  | .ok device =>
    -- Set initial device properties
    let device := { device with CreatedAt := r.now 0 }
    let device := { device with LastSeen := r.now 1 }
    let device := { device with IPAddress := r.RemoteAddr }
    -- Enrich device info with geolocation; an error is only printed
    let enriched := hp.enrichDeviceInfo h device
    let c1 := Call.enrichDeviceInfo device enriched.2.2
    let h := enriched.1
    let device := enriched.2.1
    -- Check for suspicious patterns
    let verdict := hp.isSuspiciousDevice h device
    let c2 := Call.isSuspiciousDevice device verdict.2
    let h := verdict.1
    let checked : σ × List Call × DeviceInfo :=
      if verdict.2 then
        let event : SecurityEvent :=
          { Type_ := "suspicious_device"
            DeviceID := device.SessionID
            UserID := ""
            IPAddress := device.IPAddress
            Severity := "high"
            Details := "Suspicious device pattern detected during registration"
            Timestamp := r.now 2 }
        let logged := hp.logSecurityEvent h event
        (logged.1, [c1, c2, Call.logSecurityEvent event logged.2],
          { device with IsAuthorized := false })
      else
        (h, [c1, c2], { device with IsAuthorized := true })
    let h := checked.1
    let device := checked.2.2
    -- Store device info
    let stored := hp.storeDevice h device
    let calls := checked.2.1 ++ [Call.storeDevice device stored.2]
    match stored.2 with
    | some _ => ⟨stored.1, calls, httpError "Error storing device info" StatusInternalServerError⟩
    | none =>
      ⟨stored.1, calls, jsonEncode (.registration "success" device.SessionID device.IsAuthorized)⟩

/-- DeviceHeartbeat handles device heartbeat updates (lines 127-158). -/
def DeviceHeartbeat (hp : Helpers σ) (h : σ) (r : Request HeartbeatFields) : Result σ :=
  match decodeHeartbeat r.Body with
  | .error _ => ⟨h, [], httpError "Invalid request body" StatusBadRequest⟩
  | .ok heartbeat =>
    -- Update device last seen time
    let updated := hp.updateDeviceLastSeen h heartbeat.DeviceID heartbeat.Timestamp
    let c1 := Call.updateDeviceLastSeen heartbeat.DeviceID heartbeat.Timestamp updated.2
    match updated.2 with
    | some _ => ⟨updated.1, [c1], httpError "Error updating device status" StatusInternalServerError⟩
    | none =>
      let h := updated.1
      -- Check for anomalies
      let verdict := hp.detectAnomalies h heartbeat.DeviceID r.RemoteAddr
      let c2 := Call.detectAnomalies heartbeat.DeviceID r.RemoteAddr verdict.2
      let h := verdict.1
      if verdict.2 then
        let event : SecurityEvent :=
          { Type_ := "anomaly_detected"
            DeviceID := heartbeat.DeviceID
            UserID := ""
            IPAddress := r.RemoteAddr
            Severity := "medium"
            Details := "Anomalous behavior detected during heartbeat"
            Timestamp := r.now 0 }
        let logged := hp.logSecurityEvent h event
        ⟨logged.1, [c1, c2, Call.logSecurityEvent event logged.2], writeHeader StatusOK⟩
      else
        ⟨h, [c1, c2], writeHeader StatusOK⟩

/-- GetDevice retrieves device information (lines 161-176). -/
def GetDevice (hp : Helpers σ) (h : σ) (r : Request β) : Result σ :=
  let deviceID := lookupOrEmpty r.Vars "id"
  let found := hp.getDeviceByID h deviceID
  let c1 := Call.getDeviceByID deviceID found.2.1 found.2.2
  match found.2.2 with
  | some err =>
    if err = Error.ErrNoRows then
      ⟨found.1, [c1], httpError "Device not found" StatusNotFound⟩
    else
      ⟨found.1, [c1], httpError "Error retrieving device" StatusInternalServerError⟩
  | none => ⟨found.1, [c1], jsonEncode (.device found.2.1)⟩

/-- AuthorizeDevice handles device authorization (lines 179-198). -/
def AuthorizeDevice (hp : Helpers σ) (h : σ) (r : Request β) : Result σ :=
  let deviceID := lookupOrEmpty r.Vars "id"
  let set := hp.setDeviceAuthorization h deviceID true
  let c1 := Call.setDeviceAuthorization deviceID true set.2
  match set.2 with
  | some _ => ⟨set.1, [c1], httpError "Error authorizing device" StatusInternalServerError⟩
  | none =>
    let event : SecurityEvent :=
      { Type_ := "device_authorized"
        DeviceID := deviceID
        UserID := ""
        IPAddress := r.RemoteAddr
        Severity := "info"
        Details := "Device manually authorized"
        Timestamp := r.now 0 }
    let logged := hp.logSecurityEvent set.1 event
    ⟨logged.1, [c1, Call.logSecurityEvent event logged.2], writeHeader StatusOK⟩

/-- BlockDevice handles device blocking (lines 201-220). -/
def BlockDevice (hp : Helpers σ) (h : σ) (r : Request β) : Result σ :=
  let deviceID := lookupOrEmpty r.Vars "id"
  let set := hp.setDeviceAuthorization h deviceID false
  let c1 := Call.setDeviceAuthorization deviceID false set.2
  match set.2 with
  | some _ => ⟨set.1, [c1], httpError "Error blocking device" StatusInternalServerError⟩
  | none =>
    let event : SecurityEvent :=
      { Type_ := "device_blocked"
        DeviceID := deviceID
        UserID := ""
        IPAddress := r.RemoteAddr
        Severity := "warning"
        Details := "Device manually blocked"
        Timestamp := r.now 0 }
    let logged := hp.logSecurityEvent set.1 event
    ⟨logged.1, [c1, Call.logSecurityEvent event logged.2], writeHeader StatusOK⟩

/-- LogSecurityEvent handles security event logging (lines 223-239). -/
def LogSecurityEvent (hp : Helpers σ) (h : σ) (r : Request SecurityEventFields) : Result σ :=
  match decodeSecurityEvent r.Body with
  | .error _ => ⟨h, [], httpError "Invalid request body" StatusBadRequest⟩
  | .ok event =>
    let event := { event with Timestamp := r.now 0 }
    let event := { event with IPAddress := r.RemoteAddr }
    let logged := hp.logSecurityEvent h event
    let c1 := Call.logSecurityEvent event logged.2
    match logged.2 with
    | some _ => ⟨logged.1, [c1], httpError "Error logging security event" StatusInternalServerError⟩
    | none => ⟨logged.1, [c1], writeHeader StatusOK⟩

/-- GetSecurityEvents retrieves security events (lines 242-255). The branch on
the `limit` query parameter has an empty body in the source. -/
def GetSecurityEvents (hp : Helpers σ) (h : σ) (r : Request β) : Result σ :=
  let limit : Int := 100 -- Default limit
  let limit : Int := if lookupOrEmpty r.Query "limit" ≠ "" then limit else limit
  let got := hp.getSecurityEvents h limit
  let c1 := Call.getSecurityEvents limit got.2.1 got.2.2
  match got.2.2 with
  | some _ => ⟨got.1, [c1], httpError "Error retrieving security events" StatusInternalServerError⟩
  | none => ⟨got.1, [c1], jsonEncode (.events got.2.1)⟩

/-- RegisterRoutes (lines 70-78): the request kinds the router dispatches, one
for each route. -/
inductive ApiRequest where
  | register (r : Request DeviceInfoFields)
  | heartbeat (r : Request HeartbeatFields)
  | getDevice (r : Request Unit)
  | authorize (r : Request Unit)
  | block (r : Request Unit)
  | logEvent (r : Request SecurityEventFields)
  | getEvents (r : Request Unit)

/-- RegisterRoutes (lines 70-78): the handler each route is bound to. -/
def serve (hp : Helpers σ) (h : σ) : ApiRequest → Result σ
  | .register r => RegisterDevice hp h r
  | .heartbeat r => DeviceHeartbeat hp h r
  | .getDevice r => GetDevice hp h r
  | .authorize r => AuthorizeDevice hp h r
  | .block r => BlockDevice hp h r
  | .logEvent r => LogSecurityEvent hp h r
  | .getEvents r => GetSecurityEvents hp h r

/-- Results of serving a sequence of requests one after the other, each on the
handler value the previous one left. -/
def serveAll (hp : Helpers σ) : σ → List ApiRequest → List (Result σ)
  | _, [] => []
  | h, q :: qs => serve hp h q :: serveAll hp (serve hp h q).handler qs

/-- Handler value left by serving a sequence of requests. -/
def handlerAfter (hp : Helpers σ) : σ → List ApiRequest → σ
  | h, [] => h
  | h, q :: qs => handlerAfter hp (serve hp h q).handler qs

/-- Events passed to `logSecurityEvent`, in order. -/
def loggedEvents (calls : List Call) : List SecurityEvent :=
  calls.filterMap fun c => match c with
    | .logSecurityEvent e _ => some e
    | _ => none

/-- Devices passed to `storeDevice`, in order. -/
def storedDevices (calls : List Call) : List DeviceInfo :=
  calls.filterMap fun c => match c with
    | .storeDevice d _ => some d
    | _ => none

/-- Limits passed to `getSecurityEvents`, in order. -/
def requestedLimits (calls : List Call) : List Int :=
  calls.filterMap fun c => match c with
    | .getSecurityEvents n _ _ => some n
    | _ => none

/-- Authorizations the calls hand to the store, in order, each with the device
id it is for: `storeDevice` carries one in the device, `setDeviceAuthorization`
as its argument; no other helper receives one. -/
def authorizationWrites (calls : List Call) : List (String × Bool) :=
  calls.filterMap fun c => match c with
    | .storeDevice d _ => some (d.SessionID, d.IsAuthorized)
    | .setDeviceAuthorization id b _ => some (id, b)
    | _ => none

namespace Main

structure SSLConfig where
  Enabled : Bool
  CertFile : String
  KeyFile : String

structure ServerConfig where
  Port : Int
  Host : String
  SSL : SSLConfig

structure DatabaseConfig where
  Type_ : String
  Path : String

structure RedisConfig where
  Host : String
  Port : Int
  Password : String
  DB : Int

structure Fail2BanConfig where
  Enabled : Bool
  MaxRetry : Int
  BanTime : Int

structure SecurityConfig where
  SessionTimeout : Int
  JWTSecret : String
  Fail2Ban : Fail2BanConfig

structure GeoFencingConfig where
  Enabled : Bool
  AllowedCountries : List String
  BlockedCountries : List String

structure SuspiciousConfig where
  MaxDevicesPerUser : Int
  NotifyOnNew : Bool
  BlockSuspicious : Bool
  GeoFencing : GeoFencingConfig

structure DeviceTrackingConfig where
  Enabled : Bool
  StoreDetails : List String
  Suspicious : SuspiciousConfig

/-- Config represents the application configuration (lines 25-72); the nested
anonymous structs are named. -/
structure Config where
  Server : ServerConfig
  Database : DatabaseConfig
  Redis : RedisConfig
  Security : SecurityConfig
  DeviceTracking : DeviceTrackingConfig

/-- Values stored in the `map[string]interface{}` built by `extractDeviceInfo`. -/
inductive Value where
  | str (s : String)
  | header (h : List (String × String))
  | time (t : Time)

/-- The `map[string]interface{}` describing a device. -/
abbrev DeviceMap := List (String × Value)

/-- Source lines 264-271. -/
def extractDeviceInfo (r : Request β) : DeviceMap :=
  [ ("ip_address", .str r.RemoteAddr),
    ("user_agent", .str (lookupOrEmpty r.Header "User-Agent")),
    ("headers", .header r.Header),
    ("timestamp", .time (r.now 0)) ]

/-- Source lines 273-275: the body is empty. -/
def storeDeviceInfo (info : DeviceMap) : Unit := ()

/-- Source lines 277-280: `return false`. The global `config` is in scope of
the Go function and is passed here as an argument. -/
def isSuspiciousActivity (config : Config) (info : DeviceMap) : Bool := false

/-- Source lines 282-284: the body is empty. -/
def logSecurityEvent (info : DeviceMap) : Unit := ()

/-- What the middleware did: the maps it passed to `logSecurityEvent`, and the
response, its own or the one of the next handler. -/
structure Tracked where
  logged : List DeviceMap
  resp : Response

/-- Source lines 243-262, with the global `config` as an argument. -/
def deviceTrackingMiddleware (config : Config) (next : Request β → Response)
    (r : Request β) : Tracked :=
  if config.DeviceTracking.Enabled then
    -- Extract and store device information
    let deviceInfo := extractDeviceInfo r
    let _ := storeDeviceInfo deviceInfo
    -- Check for suspicious activity
    if isSuspiciousActivity config deviceInfo then
      let _ := logSecurityEvent deviceInfo
      if config.DeviceTracking.Suspicious.BlockSuspicious then
        ⟨[deviceInfo], httpError "Access denied" StatusForbidden⟩
      else
        ⟨[deviceInfo], next r⟩
    else
      ⟨[], next r⟩
  else
    ⟨[], next r⟩

end Main

/-! ## Sample inputs -/

/-- A handler value with nothing behind its handles. -/
def emptyHandler : DeviceHandler Unit Unit := ⟨(), ()⟩

/-- A request with the given body, remote address and route variable `id`; the
clock reads `1000 + k` at call `k`. -/
def sampleRequest (body : Body β) (addr id : String) : Request β :=
  { Body := body
    RemoteAddr := addr
    Header := []
    Vars := [("id", id)]
    Query := []
    now := fun k => 1000 + k }

/-- The JSON object with no key. -/
def noFields : DeviceInfoFields :=
  ⟨none, none, none, none, none, none, none, none, none, none⟩

/-- A registration body for session `d1` that claims country "KP". -/
def kpFields : DeviceInfoFields :=
  { noFields with sessionId := some "d1", location := some ⟨39.0, 125.7, "KP", "Pyongyang"⟩ }

/-- The device decoded from `kpFields`. -/
def kpDevice : DeviceInfo :=
  { SessionID := "d1", UserAgent := "", Platform := "", Vendor := "", IPAddress := "10.0.0.1:5000"
    Location := ⟨39.0, 125.7, "KP", "Pyongyang"⟩, Connection := ⟨"", "", 0, 0⟩
    LastSeen := 0, CreatedAt := 0, IsAuthorized := false }

/-- A policy with geofencing enabled and "KP" as the one blocked country. -/
def kpConfig : Main.Config :=
  { Server := ⟨8080, "0.0.0.0", ⟨false, "", ""⟩⟩
    Database := ⟨"sqlite3", "vpn.db"⟩
    Redis := ⟨"localhost", 6379, "", 0⟩
    Security := ⟨3600, "", ⟨true, 5, 600⟩⟩
    DeviceTracking := ⟨true, [], ⟨5, true, true, ⟨true, [], ["KP"]⟩⟩⟩ }

/-- Helpers of the source, except that both detectors answer true and that
`logSecurityEvent` returns `logErr`. -/
def alertHelpers (logErr : Option Error) : Helpers (DeviceHandler Unit Unit) :=
  { sourceHelpers with
    isSuspiciousDevice := fun h _ => (h, true)
    detectAnomalies := fun h _ _ => (h, true)
    logSecurityEvent := fun h _ => (h, logErr) }

/-- A heartbeat body for device `d1` with the given timestamp. -/
def heartbeatFields (t : Time) : HeartbeatFields := ⟨some "d1", some t, some "ok"⟩

/-- Helpers of the source, except that `setDeviceAuthorization` fails for the
device "d2". -/
def failingUpdateHelpers : Helpers (DeviceHandler Unit Unit) :=
  { sourceHelpers with
    setDeviceAuthorization := fun h id _ =>
      (h, if id = "d2" then some (Error.other "store unavailable") else none) }

/-- The registration body `f` with other values, or none, under the keys
isAuthorized, ipAddress, createdAt and lastSeen. -/
def withTrustKeys (f : DeviceInfoFields) (a : Option Bool) (ip : Option String)
    (c l : Option Time) : DeviceInfoFields :=
  { f with isAuthorized := a, ipAddress := ip, createdAt := c, lastSeen := l }

/-- The security event body `g` with other values, or none, under the keys
timestamp and ipAddress. -/
def withServerKeys (g : SecurityEventFields) (ts : Option Time) (ip : Option String) :
    SecurityEventFields :=
  { g with timestamp := ts, ipAddress := ip }

/-- The request `r` carrying the JSON object `f` as its body. -/
def withObject {α : Type} (r : Request α) (f : β) : Request β :=
  { Body := .object f
    RemoteAddr := r.RemoteAddr
    Header := r.Header
    Vars := r.Vars
    Query := r.Query
    now := r.now }

/-- The event an operator request from "10.0.0.9:4000" logs on the clock of
`sampleRequest`, for the given type, device, severity and details. -/
def operatorEvent (type id severity details : String) : SecurityEvent :=
  { Type_ := type
    DeviceID := id
    UserID := ""
    IPAddress := "10.0.0.9:4000"
    Severity := severity
    Details := details
    Timestamp := 1000 }

/-- The request `r` carrying as its body the JSON object `f` with, under `key`,
a value of the wrong type. -/
def withIllTyped {α : Type} (r : Request α) (f : β) (key : String) : Request β :=
  { Body := .illTyped f key
    RemoteAddr := r.RemoteAddr
    Header := r.Header
    Vars := r.Vars
    Query := r.Query
    now := r.now }

/-- The security event body `probeFields` without the key timestamp. -/
def untimedProbeFields : SecurityEventFields :=
  ⟨some "probe", some "d1", none, some "1.2.3.4", some "info", none, none⟩

/-- The device of `kpFields` once RegisterDevice has set its initial properties,
for a request from "10.0.0.1:5000" on the clock of `sampleRequest`. -/
def kpRegistered : DeviceInfo :=
  { kpDevice with CreatedAt := 1000, LastSeen := 1001 }

/-- The event a registration of `kpFields` from "10.0.0.1:5000" logs when the
device is judged suspicious. -/
def kpSuspiciousEvent : SecurityEvent :=
  { Type_ := "suspicious_device"
    DeviceID := "d1"
    UserID := ""
    IPAddress := "10.0.0.1:5000"
    Severity := "high"
    Details := "Suspicious device pattern detected during registration"
    Timestamp := 1002 }

/-! ## Properties -/

/-- C3. Registration decision: for every RegisterDevice request whose body
decodes (to `dev`) and whose store step succeeds, with `susp` the verdict that
`isSuspiciousDevice` returns on the enriched device `d1` (enrichment keeping the
session id, as the one of the source does): the response is status 200 with
`status = "success"`, `deviceId` the sessionId of the request and
`authorized = !susp`; when `susp` is true exactly one event, `ev`, of type
"suspicious_device" and for that deviceId, is passed to `logSecurityEvent`, on
the handler value the verdict left, and when it is false none is; the device is
stored with `IsAuthorized = !susp` on the handler value left by what came
before, and the handler value the store returns is the one left. -/
theorem register_decision (hp : Helpers σ) (h : σ) (r : Request DeviceInfoFields)
    (dev : DeviceInfo) (hdec : decodeDeviceInfo r.Body = .ok dev)
    (dev0 : DeviceInfo)
    (hdev0 : dev0
      = { dev with CreatedAt := r.now 0, LastSeen := r.now 1, IPAddress := r.RemoteAddr })
    (h1 : σ) (d1 : DeviceInfo) (e1 : Option Error)
    (henrich : hp.enrichDeviceInfo h dev0 = (h1, d1, e1))
    (hsid : d1.SessionID = dev.SessionID)
    (h2 : σ) (susp : Bool) (hverdict : hp.isSuspiciousDevice h1 d1 = (h2, susp))
    (ev : SecurityEvent)
    (hev : ev =
      { Type_ := "suspicious_device"
        DeviceID := d1.SessionID
        UserID := ""
        IPAddress := d1.IPAddress
        Severity := "high"
        Details := "Suspicious device pattern detected during registration"
        Timestamp := r.now 2 })
    (h3 : σ) (le : Option Error) (hlog : hp.logSecurityEvent h2 ev = (h3, le))
    (h4 : σ)
    (hstore : hp.storeDevice (if susp then h3 else h2) { d1 with IsAuthorized := !susp }
      = (h4, none)) :
    (RegisterDevice hp h r).resp = ⟨200, .registration "success" dev.SessionID (!susp)⟩ ∧
    (RegisterDevice hp h r).handler = h4 ∧
    (RegisterDevice hp h r).calls
      = [Call.enrichDeviceInfo dev0 e1, Call.isSuspiciousDevice d1 susp]
        ++ (if susp then [Call.logSecurityEvent ev le] else [])
        ++ [Call.storeDevice { d1 with IsAuthorized := !susp } none] ∧
    loggedEvents (RegisterDevice hp h r).calls = (if susp then [ev] else []) ∧
    (ev.Type_, ev.DeviceID) = ("suspicious_device", dev.SessionID) := by
  subst hev hdev0
  unfold RegisterDevice
  rw [hdec]
  simp only at henrich ⊢
  rw [henrich]
  simp only
  rw [hverdict]
  cases susp
  · simp only [Bool.false_eq_true, if_false, Bool.not_false] at hstore ⊢
    rw [hstore]
    simp [loggedEvents, jsonEncode, StatusOK, hsid]
  · simp only [if_true, Bool.not_true] at hstore ⊢
    rw [hlog]
    simp only
    rw [hstore]
    simp [loggedEvents, jsonEncode, StatusOK, hsid]

/-! ### Handlers on the helpers of the source -/

theorem registerDevice_source_handler {DB Redis : Type} (h : DeviceHandler DB Redis)
    (r : Request DeviceInfoFields) : (RegisterDevice sourceHelpers h r).handler = h := by
  unfold RegisterDevice
  cases r.Body <;> rfl

theorem deviceHeartbeat_source_handler {DB Redis : Type} (h : DeviceHandler DB Redis)
    (r : Request HeartbeatFields) : (DeviceHeartbeat sourceHelpers h r).handler = h := by
  unfold DeviceHeartbeat
  cases r.Body <;> rfl

theorem logSecurityEvent_source_handler {DB Redis : Type} (h : DeviceHandler DB Redis)
    (r : Request SecurityEventFields) : (LogSecurityEvent sourceHelpers h r).handler = h := by
  unfold LogSecurityEvent
  cases r.Body <;> rfl

theorem serve_source_handler {DB Redis : Type} (h : DeviceHandler DB Redis) (q : ApiRequest) :
    (serve sourceHelpers h q).handler = h := by
  cases q with
  | register r => exact registerDevice_source_handler h r
  | heartbeat r => exact deviceHeartbeat_source_handler h r
  | getDevice r => rfl
  | authorize r => rfl
  | block r => rfl
  | logEvent r => exact logSecurityEvent_source_handler h r
  | getEvents r => rfl

theorem handlerAfter_source {DB Redis : Type} (h : DeviceHandler DB Redis)
    (qs : List ApiRequest) : handlerAfter sourceHelpers h qs = h := by
  induction qs with
  | nil => rfl
  | cons q qs ih => simp only [handlerAfter, serve_source_handler, ih]

theorem registerDevice_source_resp {DB Redis : Type} (h : DeviceHandler DB Redis)
    (r : Request DeviceInfoFields) (f : DeviceInfoFields) (hbody : r.Body = .object f) :
    (RegisterDevice sourceHelpers h r).resp
      = ⟨200, .registration "success" (f.sessionId.getD "") true⟩ := by
  unfold RegisterDevice
  rw [hbody]
  rfl

theorem registerDevice_source_calls {DB Redis : Type} (h : DeviceHandler DB Redis)
    (r : Request DeviceInfoFields) (f : DeviceInfoFields) (hbody : r.Body = .object f) :
    ∃ d0 : DeviceInfo, d0.SessionID = f.sessionId.getD "" ∧
      (RegisterDevice sourceHelpers h r).calls
        = [ Call.enrichDeviceInfo d0 none, Call.isSuspiciousDevice d0 false,
            Call.storeDevice { d0 with IsAuthorized := true } none ] := by
  unfold RegisterDevice
  rw [hbody]
  exact ⟨_, rfl, rfl⟩

/-- C1, counterexample. On a handler that served nothing before, BlockDevice for
"d1" followed by RegisterDevice with sessionId "d1", with no AuthorizeDevice in
between: both are answered 200, the registration answers `authorized = true`,
and the authorizations handed to the store are `false` for "d1" by the block,
then `true` for "d1" by the registration. -/
theorem blocked_then_registered_is_authorized :
    ((serveAll sourceHelpers emptyHandler
        [ .block (sampleRequest (.object ()) "10.0.0.9:4000" "d1"),
          .register (sampleRequest (.object kpFields) "10.0.0.1:5000" "") ]).map
        fun x => x.resp)
      = [⟨200, .empty⟩, ⟨200, .registration "success" "d1" true⟩] ∧
    ((serveAll sourceHelpers emptyHandler
        [ .block (sampleRequest (.object ()) "10.0.0.9:4000" "d1"),
          .register (sampleRequest (.object kpFields) "10.0.0.1:5000" "") ]).map
        fun x => authorizationWrites x.calls)
      = [[("d1", false)], [("d1", true)]] := by
  exact ⟨rfl, rfl⟩

/-- C1, amended. A heartbeat hands no authorization to the store, whatever the
helpers do: DeviceHeartbeat calls neither `storeDevice` nor
`setDeviceAuthorization`. A registration does not consult an earlier block:
after every sequence of requests (a BlockDevice for the same id among them or
not), RegisterDevice with a body that decodes answers `authorized = true` and
hands `true` to the store for its sessionId. -/
theorem register_ignores_block {DB Redis : Type} (hp : Helpers σ) (s : σ)
    (hb : Request HeartbeatFields) (h : DeviceHandler DB Redis) (history : List ApiRequest)
    (r : Request DeviceInfoFields) (f : DeviceInfoFields) (hbody : r.Body = .object f) :
    authorizationWrites (DeviceHeartbeat hp s hb).calls = [] ∧
    (RegisterDevice sourceHelpers (handlerAfter sourceHelpers h history) r).resp
      = ⟨200, .registration "success" (f.sessionId.getD "") true⟩ ∧
    authorizationWrites (RegisterDevice sourceHelpers (handlerAfter sourceHelpers h history) r).calls
      = [(f.sessionId.getD "", true)] := by
  refine ⟨?_, registerDevice_source_resp _ r f hbody, ?_⟩
  · unfold DeviceHeartbeat
    cases decodeHeartbeat hb.Body with
    | error e => rfl
    | ok heartbeat =>
      simp only
      generalize hp.updateDeviceLastSeen s _ _ = updated
      obtain ⟨s1, e1⟩ := updated
      cases e1 with
      | some e => rfl
      | none =>
        simp only
        generalize hp.detectAnomalies s1 _ _ = verdict
        obtain ⟨s2, b⟩ := verdict
        cases b <;> rfl
  · obtain ⟨d0, hd0, hcalls⟩ := registerDevice_source_calls (handlerAfter sourceHelpers h history) r f hbody
    rw [hcalls]
    simp [authorizationWrites, hd0]

/-- Witness for C1: a heartbeat on helpers that raise an
alert, and the registration of "d1" after a BlockDevice for "d1". -/
theorem register_ignores_block_witness :
    (sampleRequest (.object kpFields) "10.0.0.1:5000" "").Body = .object kpFields ∧
    authorizationWrites (DeviceHeartbeat (alertHelpers none) emptyHandler
      (sampleRequest (.object (heartbeatFields 5)) "10.0.0.1:5000" "")).calls = [] ∧
    (RegisterDevice sourceHelpers
        (handlerAfter sourceHelpers emptyHandler
          [.block (sampleRequest (.object ()) "10.0.0.9:4000" "d1")])
        (sampleRequest (.object kpFields) "10.0.0.1:5000" "")).resp
      = ⟨200, .registration "success" (kpFields.sessionId.getD "") true⟩ ∧
    authorizationWrites (RegisterDevice sourceHelpers
        (handlerAfter sourceHelpers emptyHandler
          [.block (sampleRequest (.object ()) "10.0.0.9:4000" "d1")])
        (sampleRequest (.object kpFields) "10.0.0.1:5000" "")).calls
      = [(kpFields.sessionId.getD "", true)] :=
  ⟨rfl, register_ignores_block (alertHelpers none) emptyHandler
      (sampleRequest (.object (heartbeatFields 5)) "10.0.0.1:5000" "") emptyHandler
      [.block (sampleRequest (.object ()) "10.0.0.9:4000" "d1")]
      (sampleRequest (.object kpFields) "10.0.0.1:5000" "") kpFields rfl⟩

/-! ### Geofencing -/

/-- C2, counterexample. Under a policy with geofencing enabled and "KP" as the
blocked country, for a device whose country is "KP": `isSuspiciousDevice`
returns false, `isSuspiciousActivity` returns false, the registration of that
device passes no event to `logSecurityEvent` and answers `authorized = true`. -/
theorem geofenced_device_not_suspicious :
    kpConfig.DeviceTracking.Suspicious.GeoFencing.Enabled = true ∧
    kpConfig.DeviceTracking.Suspicious.GeoFencing.BlockedCountries = ["KP"] ∧
    kpDevice.Location.Country = "KP" ∧
    (DeviceHandler.isSuspiciousDevice emptyHandler kpDevice).2 = false ∧
    Main.isSuspiciousActivity kpConfig
      (Main.extractDeviceInfo (sampleRequest (.object kpFields) "10.0.0.1:5000" "")) = false ∧
    loggedEvents (RegisterDevice sourceHelpers emptyHandler
      (sampleRequest (.object kpFields) "10.0.0.1:5000" "")).calls = [] ∧
    (RegisterDevice sourceHelpers emptyHandler
      (sampleRequest (.object kpFields) "10.0.0.1:5000" "")).resp
      = ⟨200, .registration "success" "d1" true⟩ := by
  exact ⟨rfl, rfl, rfl, rfl, rfl, rfl, rfl⟩

/-- C2, amended. Under every policy and for every device, whatever its country:
`isSuspiciousDevice` and `isSuspiciousActivity` return false, a registration on
the helpers of the source passes no event to `logSecurityEvent`, and the
tracking middleware records nothing and hands the request to the next handler.
Every event a registration does pass to `logSecurityEvent`, on any helpers, has
severity "high". -/
theorem suspicion_checks_never_fire {DB Redis : Type} (h : DeviceHandler DB Redis)
    (device : DeviceInfo) (config : Main.Config) (info : Main.DeviceMap)
    (r : Request DeviceInfoFields) (next : Request β → Response) (q : Request β)
    (hp : Helpers σ) (s : σ) :
    (DeviceHandler.isSuspiciousDevice h device).2 = false ∧
    Main.isSuspiciousActivity config info = false ∧
    loggedEvents (RegisterDevice sourceHelpers h r).calls = [] ∧
    Main.deviceTrackingMiddleware config next q = ⟨[], next q⟩ ∧
    ∀ e ∈ loggedEvents (RegisterDevice hp s r).calls, e.Severity = "high" := by
  refine ⟨rfl, rfl, ?_, ?_, ?_⟩
  · unfold RegisterDevice
    cases r.Body <;> rfl
  · unfold Main.deviceTrackingMiddleware
    cases config.DeviceTracking.Enabled <;> rfl
  · unfold RegisterDevice
    cases decodeDeviceInfo r.Body with
    | error e => intro e he; simp [loggedEvents] at he
    | ok device =>
      simp only
      generalize hp.enrichDeviceInfo s _ = en
      obtain ⟨s1, d1, e1⟩ := en
      simp only
      generalize hp.isSuspiciousDevice s1 d1 = verdict
      obtain ⟨s2, susp⟩ := verdict
      cases susp
      · simp only [Bool.false_eq_true, if_false]
        generalize hp.storeDevice s2 _ = stored
        obtain ⟨s3, e3⟩ := stored
        cases e3 <;> simp [loggedEvents]
      · simp only [if_true]
        generalize hp.logSecurityEvent s2 _ = logged
        obtain ⟨s3, e3⟩ := logged
        simp only
        generalize hp.storeDevice s3 _ = stored
        obtain ⟨s4, e4⟩ := stored
        cases e4 <;> simp [loggedEvents]

/-- Witness for C2: the "KP" device under the "KP" policy, and a registration on
helpers that judge every device suspicious, whose event has severity "high". -/
theorem suspicion_checks_never_fire_witness :
    (DeviceHandler.isSuspiciousDevice emptyHandler kpDevice).2 = false ∧
    Main.isSuspiciousActivity kpConfig [] = false ∧
    kpSuspiciousEvent ∈ loggedEvents (RegisterDevice (alertHelpers none) emptyHandler
        (sampleRequest (.object kpFields) "10.0.0.1:5000" "")).calls ∧
    kpSuspiciousEvent.Severity = "high" :=
  ⟨rfl, rfl, List.Mem.head _,
    (suspicion_checks_never_fire emptyHandler kpDevice kpConfig []
      (sampleRequest (.object kpFields) "10.0.0.1:5000" "")
      (fun _ => writeHeader StatusOK) (sampleRequest (.object kpFields) "10.0.0.1:5000" "")
      (alertHelpers none) emptyHandler).2.2.2.2 kpSuspiciousEvent (List.Mem.head _)⟩

/-- Witness for C3: the registration of "d1" from "10.0.0.1:5000" on helpers
that judge every device suspicious; `kpSuspiciousEvent` is logged and the
response says `authorized = false`. -/
theorem register_decision_witness :
    (RegisterDevice (alertHelpers none) emptyHandler
        (sampleRequest (.object kpFields) "10.0.0.1:5000" "")).resp
      = ⟨200, .registration "success" "d1" false⟩ ∧
    (RegisterDevice (alertHelpers none) emptyHandler
        (sampleRequest (.object kpFields) "10.0.0.1:5000" "")).handler = emptyHandler ∧
    (RegisterDevice (alertHelpers none) emptyHandler
        (sampleRequest (.object kpFields) "10.0.0.1:5000" "")).calls
      = [ Call.enrichDeviceInfo kpRegistered none, Call.isSuspiciousDevice kpRegistered true,
          Call.logSecurityEvent kpSuspiciousEvent none,
          Call.storeDevice { kpRegistered with IsAuthorized := false } none ] ∧
    loggedEvents (RegisterDevice (alertHelpers none) emptyHandler
        (sampleRequest (.object kpFields) "10.0.0.1:5000" "")).calls = [kpSuspiciousEvent] ∧
    (kpSuspiciousEvent.Type_, kpSuspiciousEvent.DeviceID) = ("suspicious_device", "d1") :=
  register_decision (alertHelpers none) emptyHandler
    (sampleRequest (.object kpFields) "10.0.0.1:5000" "")
    { kpDevice with IPAddress := "" } rfl
    kpRegistered rfl
    emptyHandler kpRegistered none rfl rfl
    emptyHandler true rfl
    kpSuspiciousEvent rfl
    emptyHandler none rfl
    emptyHandler rfl

/-! ### Heartbeats and lastSeen -/

/-- C5, counterexample. On a handler that served nothing, so that no device was
ever registered, the lookup of "ghost" is answered 200 with the encoding of a
nil device, not 404. -/
theorem unknown_device_answered_ok :
    (GetDevice sourceHelpers emptyHandler
      (sampleRequest (.object ()) "10.0.0.1:5000" "ghost")).resp = ⟨200, .device none⟩ ∧
    (GetDevice sourceHelpers emptyHandler
      (sampleRequest (.object ()) "10.0.0.1:5000" "ghost")).resp.StatusCode ≠ 404 := by
  exact ⟨rfl, by decide⟩

/-- C5, amended. GetDevice answers by the result of `getDeviceByID` alone: 404
"Device not found" when the error is `sql.ErrNoRows`, 500 when it is another
error, and otherwise 200 with the encoding of the returned device. On the
`getDeviceByID` of the source, which returns no device and no error, every
lookup is answered 200 with the encoding of a nil device. -/
theorem getDevice_answers_by_lookup {DB Redis : Type} (hp : Helpers σ) (s : σ) (r : Request β)
    (h : DeviceHandler DB Redis) :
    (GetDevice hp s r).resp =
      (match (hp.getDeviceByID s (lookupOrEmpty r.Vars "id")).2.2 with
        | some Error.ErrNoRows => ⟨404, .text "Device not found"⟩
        | some (Error.other _) => ⟨500, .text "Error retrieving device"⟩
        | none => ⟨200, .device (hp.getDeviceByID s (lookupOrEmpty r.Vars "id")).2.1⟩) ∧
    (GetDevice sourceHelpers h r).resp = ⟨200, .device none⟩ := by
  refine ⟨?_, rfl⟩
  unfold GetDevice
  simp only
  generalize hp.getDeviceByID s _ = found
  obtain ⟨s1, d, e⟩ := found
  cases e with
  | none => rfl
  | some err => cases err <;> rfl

/-! ### Validation of the registration body -/

/-- C6, counterexample. The registration whose body is the JSON object with no
key is answered 200 with `deviceId = ""` and `authorized = true`, and one device
is passed to `storeDevice`, with the empty session id. -/
theorem empty_object_is_registered :
    (RegisterDevice sourceHelpers emptyHandler
      (sampleRequest (.object noFields) "10.0.0.1:5000" "")).resp
      = ⟨200, .registration "success" "" true⟩ ∧
    (storedDevices (RegisterDevice sourceHelpers emptyHandler
      (sampleRequest (.object noFields) "10.0.0.1:5000" "")).calls).map (fun d => d.SessionID)
      = [""] := by
  exact ⟨rfl, rfl⟩

/-- C6, amended. A registration whose body does not decode, malformed or with a
value of the wrong type under a key, is answered 400 "Invalid request body" and
calls no helper, so neither `storeDevice` nor `logSecurityEvent`. A registration
whose body decodes, whatever keys it lacks, is never answered 400 and passes
exactly one device to `storeDevice`. -/
theorem register_rejects_undecodable_body (hp : Helpers σ) (h : σ)
    (r : Request DeviceInfoFields) :
    (r.Body = .malformed →
      (RegisterDevice hp h r).resp = ⟨400, .text "Invalid request body"⟩ ∧
      (RegisterDevice hp h r).calls = []) ∧
    (∀ f, r.Body = .object f →
      (RegisterDevice hp h r).resp.StatusCode ≠ 400 ∧
      (storedDevices (RegisterDevice hp h r).calls).length = 1) ∧
    (∀ f key, r.Body = .illTyped f key →
      (RegisterDevice hp h r).resp = ⟨400, .text "Invalid request body"⟩ ∧
      (RegisterDevice hp h r).calls = []) := by
  refine ⟨?_, ?_, ?_⟩
  · intro hbody
    unfold RegisterDevice
    rw [hbody]
    exact ⟨rfl, rfl⟩
  rotate_left
  · intro f key hbody
    unfold RegisterDevice
    rw [hbody]
    exact ⟨rfl, rfl⟩
  · intro f hbody
    unfold RegisterDevice
    simp only [hbody, decodeDeviceInfo]
    generalize hp.enrichDeviceInfo h _ = en
    obtain ⟨h1, d1, e1⟩ := en
    simp only
    generalize hp.isSuspiciousDevice h1 d1 = verdict
    obtain ⟨h2, susp⟩ := verdict
    cases susp
    · simp only [Bool.false_eq_true, if_false]
      generalize hp.storeDevice h2 _ = stored
      obtain ⟨h3, e3⟩ := stored
      cases e3 <;>
        simp [storedDevices, httpError, jsonEncode, StatusOK, StatusInternalServerError]
    · simp only [if_true]
      generalize hp.logSecurityEvent h2 _ = logged
      obtain ⟨h3, e3⟩ := logged
      simp only
      generalize hp.storeDevice h3 _ = stored
      obtain ⟨h4, e4⟩ := stored
      cases e4 <;>
        simp [storedDevices, httpError, jsonEncode, StatusOK, StatusInternalServerError]

/-- Witness for C6: a malformed body, the JSON object with no key, and the JSON
object whose only key, createdAt, holds a value that is not a time. -/
theorem register_rejects_undecodable_body_witness :
    ((sampleRequest (.malformed : Body DeviceInfoFields) "10.0.0.1:5000" "").Body = .malformed ∧
      (RegisterDevice sourceHelpers emptyHandler
        (sampleRequest .malformed "10.0.0.1:5000" "")).resp
        = ⟨400, .text "Invalid request body"⟩ ∧
      (RegisterDevice sourceHelpers emptyHandler
        (sampleRequest .malformed "10.0.0.1:5000" "")).calls = []) ∧
    ((sampleRequest (.object noFields) "10.0.0.1:5000" "").Body = .object noFields ∧
      (RegisterDevice sourceHelpers emptyHandler
        (sampleRequest (.object noFields) "10.0.0.1:5000" "")).resp.StatusCode ≠ 400 ∧
      (storedDevices (RegisterDevice sourceHelpers emptyHandler
        (sampleRequest (.object noFields) "10.0.0.1:5000" "")).calls).length = 1) ∧
    ((sampleRequest (.illTyped noFields "createdAt") "10.0.0.1:5000" "").Body
        = .illTyped noFields "createdAt" ∧
      (RegisterDevice sourceHelpers emptyHandler
        (sampleRequest (.illTyped noFields "createdAt") "10.0.0.1:5000" "")).resp
        = ⟨400, .text "Invalid request body"⟩ ∧
      (RegisterDevice sourceHelpers emptyHandler
        (sampleRequest (.illTyped noFields "createdAt") "10.0.0.1:5000" "")).calls = []) :=
  ⟨⟨rfl, (register_rejects_undecodable_body sourceHelpers emptyHandler
      (sampleRequest .malformed "10.0.0.1:5000" "")).1 rfl⟩,
   ⟨rfl, (register_rejects_undecodable_body sourceHelpers emptyHandler
      (sampleRequest (.object noFields) "10.0.0.1:5000" "")).2.1 noFields rfl⟩,
   ⟨rfl, (register_rejects_undecodable_body sourceHelpers emptyHandler
      (sampleRequest (.illTyped noFields "createdAt") "10.0.0.1:5000" "")).2.2
      noFields "createdAt" rfl⟩⟩

/-! ### Errors of the event log -/

/-- C8. Operator transitions are logged with the matching event type: for every
handler value (whatever the state of the device) and every request for the
device id `d` of the route. When `setDeviceAuthorization d true` succeeds,
AuthorizeDevice passes exactly one event to `logSecurityEvent`, `eva` of type
"device_authorized" and for `d`, on the handler value the update returned, it
leaves the handler value that call returns, and it answers 200. When
`setDeviceAuthorization d false` succeeds, BlockDevice does the same with `evb`
of type "device_blocked". When the update fails the handler answers 500, passes
no event and leaves the handler value the update returned. On the source both
the update and the append return `nil`, so every AuthorizeDevice and every
BlockDevice is of the first kind. -/
theorem operator_transitions_logged {DB Redis : Type} (hp : Helpers σ) (h : σ) (r : Request β)
    (d : String) (hd : d = lookupOrEmpty r.Vars "id")
    (ha : σ) (ea : Option Error) (hauth : hp.setDeviceAuthorization h d true = (ha, ea))
    (hb : σ) (eb : Option Error) (hblock : hp.setDeviceAuthorization h d false = (hb, eb))
    (eva : SecurityEvent)
    (heva : eva =
      { Type_ := "device_authorized"
        DeviceID := d
        UserID := ""
        IPAddress := r.RemoteAddr
        Severity := "info"
        Details := "Device manually authorized"
        Timestamp := r.now 0 })
    (evb : SecurityEvent)
    (hevb : evb =
      { Type_ := "device_blocked"
        DeviceID := d
        UserID := ""
        IPAddress := r.RemoteAddr
        Severity := "warning"
        Details := "Device manually blocked"
        Timestamp := r.now 0 })
    (la : σ) (lea : Option Error) (hloga : hp.logSecurityEvent ha eva = (la, lea))
    (lb : σ) (leb : Option Error) (hlogb : hp.logSecurityEvent hb evb = (lb, leb))
    (s : DeviceHandler DB Redis) :
    (ea = none →
      (AuthorizeDevice hp h r).resp = ⟨200, .empty⟩ ∧
      (AuthorizeDevice hp h r).calls
        = [Call.setDeviceAuthorization d true none, Call.logSecurityEvent eva lea] ∧
      (AuthorizeDevice hp h r).handler = la ∧
      loggedEvents (AuthorizeDevice hp h r).calls = [eva]) ∧
    (ea ≠ none →
      (AuthorizeDevice hp h r).resp = ⟨500, .text "Error authorizing device"⟩ ∧
      (AuthorizeDevice hp h r).calls = [Call.setDeviceAuthorization d true ea] ∧
      (AuthorizeDevice hp h r).handler = ha ∧
      loggedEvents (AuthorizeDevice hp h r).calls = []) ∧
    (eb = none →
      (BlockDevice hp h r).resp = ⟨200, .empty⟩ ∧
      (BlockDevice hp h r).calls
        = [Call.setDeviceAuthorization d false none, Call.logSecurityEvent evb leb] ∧
      (BlockDevice hp h r).handler = lb ∧
      loggedEvents (BlockDevice hp h r).calls = [evb]) ∧
    (eb ≠ none →
      (BlockDevice hp h r).resp = ⟨500, .text "Error blocking device"⟩ ∧
      (BlockDevice hp h r).calls = [Call.setDeviceAuthorization d false eb] ∧
      (BlockDevice hp h r).handler = hb ∧
      loggedEvents (BlockDevice hp h r).calls = []) ∧
    (eva.Type_, eva.DeviceID) = ("device_authorized", d) ∧
    (evb.Type_, evb.DeviceID) = ("device_blocked", d) ∧
    AuthorizeDevice sourceHelpers s r
      = ⟨s, [Call.setDeviceAuthorization d true none, Call.logSecurityEvent eva none],
          ⟨200, .empty⟩⟩ ∧
    BlockDevice sourceHelpers s r
      = ⟨s, [Call.setDeviceAuthorization d false none, Call.logSecurityEvent evb none],
          ⟨200, .empty⟩⟩ := by
  subst hd heva hevb
  refine ⟨?_, ?_, ?_, ?_, rfl, rfl, rfl, rfl⟩
  · intro hea
    subst hea
    unfold AuthorizeDevice
    simp only
    rw [hauth]
    simp only
    rw [hloga]
    exact ⟨rfl, rfl, rfl, rfl⟩
  · intro hea
    unfold AuthorizeDevice
    simp only
    rw [hauth]
    cases ea with
    | none => exact absurd rfl hea
    | some e => exact ⟨rfl, rfl, rfl, rfl⟩
  · intro heb
    subst heb
    unfold BlockDevice
    simp only
    rw [hblock]
    simp only
    rw [hlogb]
    exact ⟨rfl, rfl, rfl, rfl⟩
  · intro heb
    unfold BlockDevice
    simp only
    rw [hblock]
    cases eb with
    | none => exact absurd rfl heb
    | some e => exact ⟨rfl, rfl, rfl, rfl⟩

/-- Witness for C8: AuthorizeDevice and BlockDevice for "d1", whose update
succeeds, and for "d2", whose update fails. -/
theorem operator_transitions_logged_witness :
    ((AuthorizeDevice failingUpdateHelpers emptyHandler
        (sampleRequest (.object ()) "10.0.0.9:4000" "d1")).resp = ⟨200, .empty⟩ ∧
      (AuthorizeDevice failingUpdateHelpers emptyHandler
        (sampleRequest (.object ()) "10.0.0.9:4000" "d1")).calls
        = [Call.setDeviceAuthorization "d1" true none,
            Call.logSecurityEvent (operatorEvent "device_authorized" "d1" "info"
              "Device manually authorized") none] ∧
      (AuthorizeDevice failingUpdateHelpers emptyHandler
        (sampleRequest (.object ()) "10.0.0.9:4000" "d1")).handler = emptyHandler ∧
      loggedEvents (AuthorizeDevice failingUpdateHelpers emptyHandler
        (sampleRequest (.object ()) "10.0.0.9:4000" "d1")).calls
        = [operatorEvent "device_authorized" "d1" "info" "Device manually authorized"]) ∧
    ((BlockDevice failingUpdateHelpers emptyHandler
        (sampleRequest (.object ()) "10.0.0.9:4000" "d1")).resp = ⟨200, .empty⟩ ∧
      (BlockDevice failingUpdateHelpers emptyHandler
        (sampleRequest (.object ()) "10.0.0.9:4000" "d1")).calls
        = [Call.setDeviceAuthorization "d1" false none,
            Call.logSecurityEvent (operatorEvent "device_blocked" "d1" "warning"
              "Device manually blocked") none] ∧
      (BlockDevice failingUpdateHelpers emptyHandler
        (sampleRequest (.object ()) "10.0.0.9:4000" "d1")).handler = emptyHandler ∧
      loggedEvents (BlockDevice failingUpdateHelpers emptyHandler
        (sampleRequest (.object ()) "10.0.0.9:4000" "d1")).calls
        = [operatorEvent "device_blocked" "d1" "warning" "Device manually blocked"]) ∧
    (some (Error.other "store unavailable") ≠ none ∧
      (AuthorizeDevice failingUpdateHelpers emptyHandler
        (sampleRequest (.object ()) "10.0.0.9:4000" "d2")).resp
        = ⟨500, .text "Error authorizing device"⟩ ∧
      (AuthorizeDevice failingUpdateHelpers emptyHandler
        (sampleRequest (.object ()) "10.0.0.9:4000" "d2")).calls
        = [Call.setDeviceAuthorization "d2" true (some (Error.other "store unavailable"))] ∧
      (AuthorizeDevice failingUpdateHelpers emptyHandler
        (sampleRequest (.object ()) "10.0.0.9:4000" "d2")).handler = emptyHandler ∧
      loggedEvents (AuthorizeDevice failingUpdateHelpers emptyHandler
        (sampleRequest (.object ()) "10.0.0.9:4000" "d2")).calls = []) ∧
    ((BlockDevice failingUpdateHelpers emptyHandler
        (sampleRequest (.object ()) "10.0.0.9:4000" "d2")).resp
        = ⟨500, .text "Error blocking device"⟩ ∧
      (BlockDevice failingUpdateHelpers emptyHandler
        (sampleRequest (.object ()) "10.0.0.9:4000" "d2")).calls
        = [Call.setDeviceAuthorization "d2" false (some (Error.other "store unavailable"))] ∧
      (BlockDevice failingUpdateHelpers emptyHandler
        (sampleRequest (.object ()) "10.0.0.9:4000" "d2")).handler = emptyHandler ∧
      loggedEvents (BlockDevice failingUpdateHelpers emptyHandler
        (sampleRequest (.object ()) "10.0.0.9:4000" "d2")).calls = []) :=
  have w1 := operator_transitions_logged failingUpdateHelpers emptyHandler
    (sampleRequest (.object ()) "10.0.0.9:4000" "d1") "d1" rfl
    emptyHandler none rfl emptyHandler none rfl
    (operatorEvent "device_authorized" "d1" "info" "Device manually authorized") rfl
    (operatorEvent "device_blocked" "d1" "warning" "Device manually blocked") rfl
    emptyHandler none rfl emptyHandler none rfl emptyHandler
  have w2 := operator_transitions_logged failingUpdateHelpers emptyHandler
    (sampleRequest (.object ()) "10.0.0.9:4000" "d2") "d2" rfl
    emptyHandler (some (Error.other "store unavailable")) rfl
    emptyHandler (some (Error.other "store unavailable")) rfl
    (operatorEvent "device_authorized" "d2" "info" "Device manually authorized") rfl
    (operatorEvent "device_blocked" "d2" "warning" "Device manually blocked") rfl
    emptyHandler none rfl emptyHandler none rfl emptyHandler
  ⟨w1.1 rfl, w1.2.2.1 rfl, ⟨by simp, w2.2.1 (by simp)⟩, w2.2.2.2.1 (by simp)⟩

/-! ### Limit of the security events query -/

/-- C9. The limit of the security events query is ignored and bounded: for every
request, whatever its `limit` query parameter, GetSecurityEvents makes one
helper call, `getSecurityEvents` with limit 100. -/
theorem security_events_limit_is_100 (hp : Helpers σ) (h : σ) (r : Request β) :
    (GetSecurityEvents hp h r).calls
      = [Call.getSecurityEvents 100 (hp.getSecurityEvents h 100).2.1
          (hp.getSecurityEvents h 100).2.2] ∧
    requestedLimits (GetSecurityEvents hp h r).calls = [100] := by
  unfold GetSecurityEvents
  simp only [ite_self]
  generalize hp.getSecurityEvents h 100 = got
  obtain ⟨h1, es, e⟩ := got
  cases e <;> exact ⟨rfl, rfl⟩

/-! ### Client-asserted fields -/

/-- C10, counterexample. Two registrations from the same address on the same
clock whose bodies differ only in createdAt: the JSON object with no key is
answered 200 and one device is stored; the JSON object whose one key,
createdAt, holds a value that is not a time is answered 400 and none is stored.
Likewise two LogSecurityEvent requests whose bodies differ only in timestamp:
without the key the event is logged and the answer is 200, with a value that is
not a time under it the answer is 400 and no event is logged. -/
theorem ill_typed_trust_field_is_rejected :
    (RegisterDevice sourceHelpers emptyHandler
        (sampleRequest (.object noFields) "10.0.0.1:5000" "")).resp
      = ⟨200, .registration "success" "" true⟩ ∧
    (storedDevices (RegisterDevice sourceHelpers emptyHandler
        (sampleRequest (.object noFields) "10.0.0.1:5000" "")).calls).length = 1 ∧
    (RegisterDevice sourceHelpers emptyHandler
        (sampleRequest (.illTyped noFields "createdAt") "10.0.0.1:5000" "")).resp
      = ⟨400, .text "Invalid request body"⟩ ∧
    storedDevices (RegisterDevice sourceHelpers emptyHandler
        (sampleRequest (.illTyped noFields "createdAt") "10.0.0.1:5000" "")).calls = [] ∧
    (LogSecurityEvent sourceHelpers emptyHandler
        (sampleRequest (.object untimedProbeFields) "10.0.0.1:5000" "")).resp = ⟨200, .empty⟩ ∧
    (loggedEvents (LogSecurityEvent sourceHelpers emptyHandler
        (sampleRequest (.object untimedProbeFields) "10.0.0.1:5000" "")).calls).length = 1 ∧
    (LogSecurityEvent sourceHelpers emptyHandler
        (sampleRequest (.illTyped untimedProbeFields "timestamp") "10.0.0.1:5000" "")).resp
      = ⟨400, .text "Invalid request body"⟩ ∧
    loggedEvents (LogSecurityEvent sourceHelpers emptyHandler
        (sampleRequest (.illTyped untimedProbeFields "timestamp") "10.0.0.1:5000" "")).calls
      = [] := by
  exact ⟨rfl, rfl, rfl, rfl, rfl, rfl, rfl, rfl⟩

/-- C10, amended. Client-asserted trust fields have no influence once the body
decodes: two registrations that are the same request (remote address, clock and
all) but for the keys isAuthorized, ipAddress, createdAt and lastSeen of bodies
that both decode pass the same one device to `storeDevice`, whose four fields
hold the server values, and get the same response; two LogSecurityEvent
requests that are the same but for the keys timestamp and ipAddress of bodies
that both decode pass the same one event to `logSecurityEvent`, whose two
fields hold the server values. A body with a value of the wrong type under a
key does not decode: the request is answered 400 and no helper is called. -/
theorem client_trust_fields_ignored {DB Redis : Type} (h : DeviceHandler DB Redis)
    (r : Request DeviceInfoFields) (f : DeviceInfoFields)
    (a : Option Bool) (ip : Option String) (c l : Option Time)
    (hp : Helpers σ) (s : σ) (q : Request SecurityEventFields) (g : SecurityEventFields)
    (ts : Option Time) (ip2 : Option String) (key : String) :
    (∃ d, storedDevices (RegisterDevice sourceHelpers h (withObject r f)).calls = [d] ∧
      storedDevices (RegisterDevice sourceHelpers h
        (withObject r (withTrustKeys f a ip c l))).calls = [d] ∧
      d.IsAuthorized = true ∧ d.IPAddress = r.RemoteAddr ∧
      d.CreatedAt = r.now 0 ∧ d.LastSeen = r.now 1) ∧
    (RegisterDevice sourceHelpers h (withObject r f)).resp
      = (RegisterDevice sourceHelpers h (withObject r (withTrustKeys f a ip c l))).resp ∧
    (∃ e, loggedEvents (LogSecurityEvent hp s (withObject q g)).calls = [e] ∧
      loggedEvents (LogSecurityEvent hp s (withObject q (withServerKeys g ts ip2))).calls
        = [e] ∧
      e.Timestamp = q.now 0 ∧ e.IPAddress = q.RemoteAddr) ∧
    (RegisterDevice hp s (withIllTyped r f key)).resp = ⟨400, .text "Invalid request body"⟩ ∧
    (RegisterDevice hp s (withIllTyped r f key)).calls = [] ∧
    (LogSecurityEvent hp s (withIllTyped q g key)).resp = ⟨400, .text "Invalid request body"⟩ ∧
    (LogSecurityEvent hp s (withIllTyped q g key)).calls = [] := by
  refine ⟨⟨_, rfl, rfl, rfl, rfl, rfl, rfl⟩, rfl, ?_, rfl, rfl, rfl, rfl⟩
  unfold LogSecurityEvent
  simp only [decodeSecurityEvent, withObject, withServerKeys]
  generalize hp.logSecurityEvent s _ = logged
  obtain ⟨s1, e1⟩ := logged
  cases e1 <;> exact ⟨_, rfl, rfl, rfl, rfl⟩

end VpnServer
